import Mathlib

/-!
Verification of `modules/planning/pipeline/feature_generator.cc` (Apollo planning
pipeline).  The feature generator consumes a time-ordered stream of localization
and chassis samples, accumulates localization samples in a sliding window
(`localization_for_label_`), closes a learning-data frame each time the window
reaches `FLAGS_learning_data_frame_label_sample_interval` samples, and writes the
in-memory batch (`learning_data_`) to a numbered file whenever it holds at least
`FLAGS_learning_data_frame_num_per_file` frames; `Close()` flushes the remainder.

The state machine below is a shallow embedding of that code.  The payload types
of localization samples (`L`), chassis samples (`CS`), localization feature
snapshots (`LF`), chassis feature snapshots (`CF`) and trajectory-label points
(`P`) are type parameters: the control logic of the source never inspects them,
it only copies them around through the three conversion functions collected in
`Conv`.  The concrete numeric conversion performed by `GenerateTrajectoryLabel`
(lines 90-102 of the source) is embedded separately at the end over `ℝ`
(protobuf doubles modelled as real numbers).

Fields named `writtenFiles`, `closedFrames`, `closedInBatch` and `errorCount`
are history (ghost) variables: they are only written, never read, by the
machine, and record respectively every file write performed by
`WriteOutLearningData`, every frame at the moment `GenerateTrajectoryLabel` ran
on it (the frame-close event), the frames closed since the last batch flush, and
every `AERROR` taken on the `learning_data_frame_ == nullptr` guard.
-/

namespace Apollo

/-- The gflags configuration surface of `feature_generator.cc` (lines 27-47). -/
structure Flags where
  planningDataDir : String
  learningDataFrameLabelSampleInterval : ℕ
  learningDataFrameNumPerFile : ℕ
  localizationSampleIntervalForTrajectoryPoint : ℕ
  localizationMoveWindowStep : ℕ
  enableBinaryLearningData : Bool
deriving DecidableEq, Repr

section Machine

variable {L CS LF CF P : Type}

/-- One `LearningDataFrame` proto: its localization feature snapshot
(`mutable_localization_feature`), chassis feature snapshot
(`mutable_chassis_feature`) and label trajectory points
(`label_trajectory_points`).  A freshly added frame (`add_learning_data()`) has
all fields unset/empty. -/
structure Frame (LF CF P : Type) where
  localizationFeature : Option LF
  chassisFeature : Option CF
  labelTrajectoryPoints : List P
deriving DecidableEq, Repr

/-- A frame as created by `learning_data_.add_learning_data()`. -/
def emptyFrame : Frame LF CF P := ⟨none, none, []⟩

/-- One output file as produced by `WriteOutLearningData` (lines 60-67): its
name, whether the binary codec (`SetProtoToBinaryFile`) or the ASCII codec
(`SetProtoToASCIIFile`) was used, and the frames of the serialized
`LearningData` message. -/
structure OutFile (LF CF P : Type) where
  name : String
  binaryFormat : Bool
  frames : List (Frame LF CF P)
deriving DecidableEq, Repr

/-- The sample-payload conversions used by the generator: the pose-field copy
into the localization feature (lines 113-119), the trajectory-point conversion
of `GenerateTrajectoryLabel` (lines 90-102), and the chassis-field copy
(lines 149-154). -/
structure Conv (L CS LF CF P : Type) where
  localizationFeatureOf : L → LF
  trajectoryPointOf : L → P
  chassisFeatureOf : CS → CF

/-- The mutable state of a `FeatureGenerator`.

`learningData` is the repeated `learning_data` field of `learning_data_`; the
pointer `learning_data_frame_` always designates the element most recently
appended by `add_learning_data()`, i.e. the LAST element of `learningData`, so
it is represented by `hasOpenFrame` (whether the pointer is non-null) together
with the position `learningData.getLast?`.  The remaining three fields are the
member variables `localization_for_label_`, `learning_data_file_index_` and
`total_learning_data_frame_num_`.  The last four fields are history variables
(see the module comment); the machine never reads them. -/
structure GenState (L LF CF P : Type) where
  learningData : List (Frame LF CF P)
  hasOpenFrame : Bool
  localizationForLabel : List L
  learningDataFileIndex : ℕ
  totalLearningDataFrameNum : ℕ
  writtenFiles : List (OutFile LF CF P)
  closedFrames : List (Frame LF CF P)
  closedInBatch : List (Frame LF CF P)
  errorCount : ℕ
deriving DecidableEq, Repr

/-- Modelled from the spec: the member initializers of `FeatureGenerator`
(declared in `feature_generator.h`, which is not part of the sources given):
empty window, empty learning data, null `learning_data_frame_` pointer, file
index 0, cumulative frame total 0 (spec section 3: "a monotonically increasing
file index and a running total of frames ever flushed"; "The Window is created
empty"; design note: "current frame pointer may be null"). -/
def initialState : GenState L LF CF P :=
  { learningData := []
    hasOpenFrame := false
    localizationForLabel := []
    learningDataFileIndex := 0
    totalLearningDataFrameNum := 0
    writtenFiles := []
    closedFrames := []
    closedInBatch := []
    errorCount := 0 }

/-- `FeatureGenerator::Init` (lines 57-58): `learning_data_frame_ =
learning_data_.add_learning_data()` appends a fresh frame and leaves the
current-frame pointer on it. -/
def initGenerator (s : GenState L LF CF P) : GenState L LF CF P :=
  { s with learningData := s.learningData ++ [emptyFrame], hasOpenFrame := true }

/-- Apply a function to the last element of a list (a mutation through the
`learning_data_frame_` pointer, which designates the last appended frame). -/
def updateLast (f : α → α) : List α → List α
  | [] => []
  | [a] => [f a]
  | a :: b :: rest => a :: updateLast f (b :: rest)

/-- The file name built at lines 70-72 and 133-135:
`absl::StrCat(FLAGS_planning_data_dir, "/learning_data.", index, ".bin")`.
Note the suffix is the fixed string `.bin` for both serialization codecs. -/
def outputFileName (dir : String) (index : ℕ) : String :=
  dir ++ "/learning_data." ++ toString index ++ ".bin"

/-- The loop body of `GenerateTrajectoryLabel` (lines 84-103): walk the window
with a running index `i` (the source starts `i` at `-1` and pre-increments, so
the first element is seen with `i = 0`) and convert exactly the elements whose
index satisfies `i % FLAGS_localization_sample_interval_for_trajectory_point
== 0`. -/
def generateTrajectoryLabelAux (toPoint : L → P) (stride : ℕ) :
    ℕ → List L → List P
  | _, [] => []
  | i, le :: rest =>
    if i % stride = 0 then
      toPoint le :: generateTrajectoryLabelAux toPoint stride (i + 1) rest
    else
      generateTrajectoryLabelAux toPoint stride (i + 1) rest

/-- `FeatureGenerator::GenerateTrajectoryLabel` (lines 80-104): append the
stride-sampled conversion of `localization_for_label` to the frame's
`label_trajectory_points`. -/
def generateTrajectoryLabel (toPoint : L → P) (stride : ℕ)
    (localizationForLabel : List L) (frame : Frame LF CF P) : Frame LF CF P :=
  { frame with labelTrajectoryPoints :=
      frame.labelTrajectoryPoints ++
        generateTrajectoryLabelAux toPoint stride 0 localizationForLabel }

/-- Lines 113-120 of `OnLocalization`: overwrite the open frame's localization
feature from the sample's pose and `push_back` the sample onto
`localization_for_label_`. -/
def applyLocFeature (cv : Conv L CS LF CF P) (le : L) (s : GenState L LF CF P) :
    GenState L LF CF P :=
  { s with
    learningData := updateLast
      (fun fr => { fr with localizationFeature := some (cv.localizationFeatureOf le) })
      s.learningData
    localizationForLabel := s.localizationForLabel ++ [le] }

/-- The body of the frame-close branch (lines 124-128): generate the trajectory
label into the open frame, append a fresh open frame, and `pop_front` the window
`FLAGS_localization_move_window_step` times (modelled by `List.drop`, which like
the loop removes elements from the front; on a window shorter than the step the
C++ `pop_front` on an empty list would be undefined, `drop` saturates). -/
def closeFrame (fl : Flags) (cv : Conv L CS LF CF P) (s : GenState L LF CF P) :
    GenState L LF CF P :=
  let withLabels := updateLast
    (generateTrajectoryLabel cv.trajectoryPointOf
      fl.localizationSampleIntervalForTrajectoryPoint s.localizationForLabel)
    s.learningData
  { s with
    learningData := withLabels ++ [emptyFrame]
    localizationForLabel := s.localizationForLabel.drop fl.localizationMoveWindowStep
    closedFrames := s.closedFrames ++ withLabels.getLast?.toList
    closedInBatch := s.closedInBatch ++ withLabels.getLast?.toList }

/-- The frame-close trigger (lines 122-123): the window length has reached
`FLAGS_learning_data_frame_label_sample_interval`. -/
def maybeCloseFrame (fl : Flags) (cv : Conv L CS LF CF P)
    (s : GenState L LF CF P) : GenState L LF CF P :=
  if fl.learningDataFrameLabelSampleInterval ≤ s.localizationForLabel.length then
    closeFrame fl cv s
  else s

/-- The body of the batch-flush branch (lines 133-140): write the whole
`learning_data_` message out, add its frame count to the cumulative total,
clear it, bump the file index and open a fresh frame. -/
def flushBatch (fl : Flags) (s : GenState L LF CF P) : GenState L LF CF P :=
  { s with
    writtenFiles := s.writtenFiles ++
      [⟨outputFileName fl.planningDataDir s.learningDataFileIndex,
        fl.enableBinaryLearningData, s.learningData⟩]
    totalLearningDataFrameNum := s.totalLearningDataFrameNum + s.learningData.length
    learningData := [emptyFrame]
    learningDataFileIndex := s.learningDataFileIndex + 1
    hasOpenFrame := true
    closedInBatch := [] }

/-- The batch-flush trigger (lines 131-132): `learning_data_.learning_data_size()
>= FLAGS_learning_data_frame_num_per_file`. -/
def maybeFlush (fl : Flags) (s : GenState L LF CF P) : GenState L LF CF P :=
  if fl.learningDataFrameNumPerFile ≤ s.learningData.length then flushBatch fl s
  else s

/-- The `learning_data_frame_ == nullptr` guard (lines 108-111 and 145-148):
log an error and return without touching any other state. -/
def recordError (s : GenState L LF CF P) : GenState L LF CF P :=
  { s with errorCount := s.errorCount + 1 }

/-- `FeatureGenerator::OnLocalization` (lines 106-142). -/
def onLocalization (fl : Flags) (cv : Conv L CS LF CF P) (le : L)
    (s : GenState L LF CF P) : GenState L LF CF P :=
  if s.hasOpenFrame = false then recordError s
  else maybeFlush fl (maybeCloseFrame fl cv (applyLocFeature cv le s))

/-- `FeatureGenerator::OnChassis` (lines 144-155): overwrite the open frame's
chassis feature snapshot; nothing else changes. -/
def onChassis (cv : Conv L CS LF CF P) (c : CS) (s : GenState L LF CF P) :
    GenState L LF CF P :=
  if s.hasOpenFrame = false then recordError s
  else
    { s with
      learningData := updateLast
        (fun fr => { fr with chassisFeature := some (cv.chassisFeatureOf c) })
        s.learningData }

/-- `FeatureGenerator::Close` (lines 69-78): unconditionally add the batch's
frame count to the cumulative total, write the batch to the next numbered file
and bump the file index.  There is no emptiness check and the batch is not
cleared. -/
def closeGenerator (fl : Flags) (s : GenState L LF CF P) : GenState L LF CF P :=
  { s with
    totalLearningDataFrameNum := s.totalLearningDataFrameNum + s.learningData.length
    writtenFiles := s.writtenFiles ++
      [⟨outputFileName fl.planningDataDir s.learningDataFileIndex,
        fl.enableBinaryLearningData, s.learningData⟩]
    learningDataFileIndex := s.learningDataFileIndex + 1 }

/-- One decoded message of the input stream, as dispatched by
`ProcessOfflineData` (lines 165-177) on the channel name. -/
inductive InputMsg (L CS : Type) where
  | localization (le : L)
  | chassis (c : CS)
deriving DecidableEq, Repr

/-- Dispatch of one decoded message (lines 166-176). -/
def processMsg (fl : Flags) (cv : Conv L CS LF CF P) (s : GenState L LF CF P) :
    InputMsg L CS → GenState L LF CF P
  | .localization le => onLocalization fl cv le s
  | .chassis c => onChassis cv c s

/-- The read loop of `ProcessOfflineData` (lines 157-178) over an
already-decoded message list. -/
def processOfflineData (fl : Flags) (cv : Conv L CS LF CF P)
    (ms : List (InputMsg L CS)) (s : GenState L LF CF P) : GenState L LF CF P :=
  ms.foldl (processMsg fl cv) s

/-- A complete run from construction: `Init()` on the default-initialized state
followed by the message stream. -/
def runFromInit (fl : Flags) (cv : Conv L CS LF CF P)
    (ms : List (InputMsg L CS)) : GenState L LF CF P :=
  processOfflineData fl cv ms (initGenerator initialState)

/-- The localization samples of a message stream, in order. -/
def locSamples : List (InputMsg L CS) → List L
  | [] => []
  | .localization le :: ms => le :: locSamples ms
  | .chassis _ :: ms => locSamples ms

/-- Pair every element of a list with its position, counting from `i` (used to
state which window indices the stride sampling of `GenerateTrajectoryLabel`
selects). -/
def withIndexFrom : ℕ → List α → List (ℕ × α)
  | _, [] => []
  | i, a :: rest => (i, a) :: withIndexFrom (i + 1) rest

/-- The master reachability invariant of the generator: the current-frame
pointer is non-null; the batch is exactly the frames closed since the last
flush followed by the open frame, whose trajectory-point list is still empty;
the cumulative total plus the live batch size accounts exactly for every frame
ever closed, plus one written-but-never-closed open frame per written file,
plus the live open frame; the file index equals the number of files written so
far; the written file names are the numbered names `0, 1, 2, ...` in order; and
every written file used the codec selected by `enable_binary_learning_data`. -/
structure Inv (fl : Flags) (s : GenState L LF CF P) : Prop where
  hasOpen : s.hasOpenFrame = true
  batchShape : ∃ fr, s.learningData = s.closedInBatch ++ [fr] ∧
    fr.labelTrajectoryPoints = []
  totalEq : s.totalLearningDataFrameNum + s.learningData.length =
    s.closedFrames.length + s.writtenFiles.length + 1
  indexEq : s.learningDataFileIndex = s.writtenFiles.length
  fileNames : s.writtenFiles.map OutFile.name =
    (List.range s.writtenFiles.length).map (outputFileName fl.planningDataDir)
  fileCodecs : ∀ f ∈ s.writtenFiles, f.binaryFormat = fl.enableBinaryLearningData

/-- Batch-size invariant, for a per-file frame count of at least 2: the live
batch always holds between 1 and `F_max - 1` frames, every file written by the
in-loop flush holds exactly `F_max` frames, and the cumulative total is
`F_max` times the number of files written. -/
structure InvB (fl : Flags) (s : GenState L LF CF P) : Prop where
  lenPos : 1 ≤ s.learningData.length
  lenLt : s.learningData.length < fl.learningDataFrameNumPerFile
  filesFull : ∀ f ∈ s.writtenFiles, f.frames.length = fl.learningDataFrameNumPerFile
  totalMul : s.totalLearningDataFrameNum =
    fl.learningDataFrameNumPerFile * s.writtenFiles.length

end Machine

section NumericConversion

/-- A 3-vector of protobuf doubles (modelled as real numbers), as used by the
pose for position, linear velocity, linear acceleration and angular velocity. -/
structure Point3D where
  x : ℝ
  y : ℝ
  z : ℝ

/-- The pose fields of a `LocalizationEstimate` read by the generator
(lines 92-101 and 114-119). -/
structure Pose where
  position : Point3D
  heading : ℝ
  linearVelocity : Point3D
  linearAcceleration : Point3D
  angularVelocity : Point3D

/-- The fields of one `TrajectoryPoint` proto set by `GenerateTrajectoryLabel`:
the path point (x, y, z, theta) and the scalars `v` and `a`. -/
structure TrajectoryPointData where
  pathX : ℝ
  pathY : ℝ
  pathZ : ℝ
  theta : ℝ
  v : ℝ
  a : ℝ

/-- Lines 90-102 of the source: the trajectory point built from one
localization sample's pose.  `v` is `std::sqrt(vx*vx + vy*vy)` over the X and Y
components of `linear_velocity` only, and `a` likewise over the X and Y
components of `linear_acceleration`; the Z components are not read. -/
noncomputable def trajectoryPointOfPose (pose : Pose) : TrajectoryPointData :=
  { pathX := pose.position.x
    pathY := pose.position.y
    pathZ := pose.position.z
    theta := pose.heading
    v := Real.sqrt (pose.linearVelocity.x * pose.linearVelocity.x +
      pose.linearVelocity.y * pose.linearVelocity.y)
    a := Real.sqrt (pose.linearAcceleration.x * pose.linearAcceleration.x +
      pose.linearAcceleration.y * pose.linearAcceleration.y) }

/-- Modelled from the spec, for comparison with the source computation: the
Euclidean norm of a full 3-component vector ("scalar speed magnitude (Euclidean
norm of linear velocity)", where the data model gives the linear velocity
vector all three components x, y, z). -/
noncomputable def euclideanNorm3 (p : Point3D) : ℝ :=
  Real.sqrt (p.x ^ 2 + p.y ^ 2 + p.z ^ 2)

/-- A pose whose linear velocity is the unit vector along Z: the source's `v`
is 0 for it while the 3-component Euclidean norm is 1. -/
def poseZ : Pose :=
  { position := ⟨0, 0, 0⟩
    heading := 0
    linearVelocity := ⟨0, 0, 1⟩
    linearAcceleration := ⟨0, 0, 0⟩
    angularVelocity := ⟨0, 0, 0⟩ }

end NumericConversion

section ConcreteInstances

/-- The payload-free instantiation used for concrete executions: every payload
type is `ℕ` and every conversion is the identity. -/
def natConv : Conv ℕ ℕ ℕ ℕ ℕ := ⟨id, id, id⟩

/-- Configuration with `T_label = 2`, `F_max = 100`, `T_stride = 2`,
`W_step = 1`. -/
def wFlags : Flags :=
  { planningDataDir := "data"
    learningDataFrameLabelSampleInterval := 2
    learningDataFrameNumPerFile := 100
    localizationSampleIntervalForTrajectoryPoint := 2
    localizationMoveWindowStep := 1
    enableBinaryLearningData := true }

/-- Configuration with `T_label = 1`, `F_max = 2`, `T_stride = 1`,
`W_step = 1`, binary codec. -/
def cexFlags : Flags :=
  { planningDataDir := "d"
    learningDataFrameLabelSampleInterval := 1
    learningDataFrameNumPerFile := 2
    localizationSampleIntervalForTrajectoryPoint := 1
    localizationMoveWindowStep := 1
    enableBinaryLearningData := true }

/-- The same configuration as `cexFlags` except that the ASCII codec is
selected. -/
def textFlags : Flags :=
  { cexFlags with enableBinaryLearningData := false }

/-- A stream of two localization samples with one chassis sample between
them. -/
def c1msgs : List (InputMsg ℕ ℕ) :=
  [InputMsg.localization 5, InputMsg.chassis 9, InputMsg.localization 7]

/-- A stream of two localization samples. -/
def c2msgs : List (InputMsg ℕ ℕ) :=
  [InputMsg.localization 0, InputMsg.localization 1]

end ConcreteInstances

section ListLemmas

variable {α β : Type}

theorem updateLast_nil (f : α → α) : updateLast f ([] : List α) = [] := rfl

theorem updateLast_append_singleton (f : α → α) (l : List α) (a : α) :
    updateLast f (l ++ [a]) = l ++ [f a] := by
  induction l with
  | nil => rfl
  | cons b bs ih =>
    cases bs with
    | nil => rfl
    | cons c cs => simpa [updateLast] using ih

theorem length_updateLast (f : α → α) (l : List α) :
    (updateLast f l).length = l.length := by
  induction l with
  | nil => rfl
  | cons b bs ih =>
    cases bs with
    | nil => rfl
    | cons c cs => simpa [updateLast] using ih

theorem updateLast_ne_nil (f : α → α) (a : α) (l : List α) :
    updateLast f (a :: l) ≠ [] := by
  cases l <;> simp [updateLast]

theorem dropLast_updateLast (f : α → α) (l : List α) :
    (updateLast f l).dropLast = l.dropLast := by
  induction l with
  | nil => rfl
  | cons b bs ih =>
    cases bs with
    | nil => rfl
    | cons c cs =>
      simp only [updateLast] at ih ⊢
      rw [List.dropLast_cons_of_ne_nil (updateLast_ne_nil f c cs),
        List.dropLast_cons_of_ne_nil (by simp), ih]

theorem getLast?_updateLast (f : α → α) (l : List α) :
    (updateLast f l).getLast? = l.getLast?.map f := by
  induction l with
  | nil => rfl
  | cons b bs ih =>
    cases bs with
    | nil => rfl
    | cons c cs =>
      simp only [updateLast] at ih ⊢
      rw [List.getLast?_cons_cons]
      cases cs with
      | nil => simp [updateLast]
      | cons d ds => simpa [updateLast, List.getLast?_cons_cons] using ih

theorem locSamples_append (ms ns : List (InputMsg α β)) :
    locSamples (ms ++ ns) = locSamples ms ++ locSamples ns := by
  induction ms with
  | nil => rfl
  | cons m ms ih => cases m <;> simp [locSamples, ih]

theorem withIndexFrom_map_fst (l : List α) : ∀ i : ℕ,
    (withIndexFrom i l).map Prod.fst = List.range' i l.length := by
  induction l with
  | nil => intro i; rfl
  | cons a rest ih => intro i; simp [withIndexFrom, List.range', ih]

theorem generateTrajectoryLabelAux_eq_filter {P : Type} (tp : α → P) (s : ℕ)
    (l : List α) : ∀ i : ℕ,
    generateTrajectoryLabelAux tp s i l =
      ((withIndexFrom i l).filter (fun p => p.1 % s = 0)).map (fun p => tp p.2) := by
  induction l with
  | nil => intro i; rfl
  | cons a rest ih =>
    intro i
    by_cases h : i % s = 0 <;>
      simp [generateTrajectoryLabelAux, withIndexFrom, List.filter_cons, h, ih]

theorem length_filter_fst (q : ℕ → Bool) (xs : List (ℕ × α)) :
    (xs.filter (fun p => q p.1)).length = ((xs.map Prod.fst).filter q).length := by
  induction xs with
  | nil => rfl
  | cons x rest ih =>
    by_cases h : q x.1 <;> simp [List.filter_cons, h, ih]

theorem length_filter_mod_range (s : ℕ) (hs : 1 ≤ s) : ∀ n : ℕ,
    ((List.range n).filter (fun i => i % s = 0)).length = (n + s - 1) / s := by
  intro n
  induction n with
  | zero =>
    simp only [List.range_zero, List.filter_nil, List.length_nil]
    exact (Nat.div_eq_of_lt (by omega)).symm
  | succ n ih =>
    rw [List.range_succ, List.filter_append, List.length_append, ih]
    have hns : n + 1 + s - 1 = (n + s - 1) + 1 := by omega
    rw [hns, Nat.succ_div]
    have hdvd : s ∣ n + s - 1 + 1 ↔ n % s = 0 := by
      have h1 : n + s - 1 + 1 = s + n := by omega
      rw [h1, Nat.dvd_add_right (dvd_refl s)]
      exact Nat.dvd_iff_mod_eq_zero
    by_cases h : n % s = 0 <;> simp [h, hdvd]

theorem withIndexFrom_zero_map_fst (l : List α) :
    (withIndexFrom 0 l).map Prod.fst = List.range l.length := by
  rw [withIndexFrom_map_fst, List.range_eq_range']

theorem length_strideSelect (s : ℕ) (hs : 1 ≤ s) (l : List α) :
    ((withIndexFrom 0 l).filter (fun p => p.1 % s = 0)).length =
      (l.length + s - 1) / s := by
  have h1 := length_filter_fst (fun i => decide (i % s = 0)) (withIndexFrom 0 l)
  rw [withIndexFrom_zero_map_fst] at h1
  exact h1.trans (length_filter_mod_range s hs l.length)

end ListLemmas

section Invariant

variable {L CS LF CF P : Type}

theorem inv_initGenerator (fl : Flags) :
    Inv fl (initGenerator (initialState : GenState L LF CF P)) := by
  constructor <;> simp [initGenerator, initialState, emptyFrame]

theorem inv_applyLocFeature {fl : Flags} {cv : Conv L CS LF CF P} {le : L}
    {s : GenState L LF CF P} (h : Inv fl s) : Inv fl (applyLocFeature cv le s) := by
  obtain ⟨fr, hld, hlab⟩ := h.batchShape
  refine ⟨h.hasOpen, ⟨{ fr with localizationFeature := some (cv.localizationFeatureOf le) }, ?_, hlab⟩, ?_, h.indexEq, h.fileNames, h.fileCodecs⟩
  · simp [applyLocFeature, hld, updateLast_append_singleton]
  · simpa [applyLocFeature, length_updateLast] using h.totalEq

theorem inv_closeFrame {fl : Flags} {cv : Conv L CS LF CF P}
    {s : GenState L LF CF P} (h : Inv fl s) : Inv fl (closeFrame fl cv s) := by
  obtain ⟨fr, hld, hlab⟩ := h.batchShape
  have hwl : updateLast
      (generateTrajectoryLabel cv.trajectoryPointOf
        fl.localizationSampleIntervalForTrajectoryPoint s.localizationForLabel)
      s.learningData =
      s.closedInBatch ++ [generateTrajectoryLabel cv.trajectoryPointOf
        fl.localizationSampleIntervalForTrajectoryPoint s.localizationForLabel fr] := by
    rw [hld, updateLast_append_singleton]
  refine ⟨h.hasOpen, ⟨emptyFrame, ?_, rfl⟩, ?_, h.indexEq, h.fileNames, h.fileCodecs⟩
  · simp [closeFrame, hwl, List.getLast?_concat]
  · have ht := h.totalEq
    rw [hld] at ht
    simp only [closeFrame, hwl, List.getLast?_concat]
    simp only [List.length_append, List.length_singleton, Option.toList_some] at ht ⊢
    omega

theorem inv_flushBatch {fl : Flags} {s : GenState L LF CF P} (h : Inv fl s) :
    Inv fl (flushBatch fl s) := by
  refine ⟨rfl, ⟨emptyFrame, by simp [flushBatch], rfl⟩, ?_, ?_, ?_, ?_⟩
  · have ht := h.totalEq
    simp only [flushBatch, List.length_append, List.length_singleton]
    omega
  · simp [flushBatch, h.indexEq]
  · simp only [flushBatch, List.map_append, List.length_append,
      List.length_singleton, h.fileNames, List.map_cons, List.map_nil]
    rw [List.range_succ, List.map_append, h.indexEq]
    rfl
  · intro f hf
    simp only [flushBatch, List.mem_append, List.mem_singleton] at hf
    rcases hf with hf | hf
    · exact h.fileCodecs f hf
    · rw [hf]

theorem inv_maybeCloseFrame {fl : Flags} {cv : Conv L CS LF CF P}
    {s : GenState L LF CF P} (h : Inv fl s) : Inv fl (maybeCloseFrame fl cv s) := by
  unfold maybeCloseFrame
  split
  · exact inv_closeFrame h
  · exact h

theorem inv_maybeFlush {fl : Flags} {s : GenState L LF CF P} (h : Inv fl s) :
    Inv fl (maybeFlush fl s) := by
  unfold maybeFlush
  split
  · exact inv_flushBatch h
  · exact h

theorem inv_onLocalization {fl : Flags} {cv : Conv L CS LF CF P} {le : L}
    {s : GenState L LF CF P} (h : Inv fl s) : Inv fl (onLocalization fl cv le s) := by
  unfold onLocalization
  rw [if_neg (by simp [h.hasOpen])]
  exact inv_maybeFlush (inv_maybeCloseFrame (inv_applyLocFeature h))

theorem inv_onChassis {fl : Flags} {cv : Conv L CS LF CF P} {c : CS}
    {s : GenState L LF CF P} (h : Inv fl s) : Inv fl (onChassis cv c s) := by
  unfold onChassis
  rw [if_neg (by simp [h.hasOpen])]
  obtain ⟨fr, hld, hlab⟩ := h.batchShape
  refine ⟨h.hasOpen, ⟨{ fr with chassisFeature := some (cv.chassisFeatureOf c) }, ?_, hlab⟩, ?_, h.indexEq, h.fileNames, h.fileCodecs⟩
  · simp [hld, updateLast_append_singleton]
  · simpa [length_updateLast] using h.totalEq

theorem inv_processMsg {fl : Flags} {cv : Conv L CS LF CF P}
    {s : GenState L LF CF P} (h : Inv fl s) (m : InputMsg L CS) :
    Inv fl (processMsg fl cv s m) := by
  cases m with
  | localization le => exact inv_onLocalization h
  | chassis c => exact inv_onChassis h

theorem inv_processOfflineData {fl : Flags} {cv : Conv L CS LF CF P}
    (ms : List (InputMsg L CS)) :
    ∀ {s : GenState L LF CF P}, Inv fl s → Inv fl (processOfflineData fl cv ms s) := by
  induction ms with
  | nil => intro s h; exact h
  | cons m ms ih =>
    intro s h
    exact ih (inv_processMsg h m)

theorem inv_runFromInit (fl : Flags) (cv : Conv L CS LF CF P)
    (ms : List (InputMsg L CS)) : Inv fl (runFromInit fl cv ms) :=
  inv_processOfflineData ms (inv_initGenerator fl)

end Invariant

section EffectLemmas

variable {L CS LF CF P : Type}

theorem onLocalization_open {fl : Flags} {cv : Conv L CS LF CF P} {le : L}
    {s : GenState L LF CF P} (h : s.hasOpenFrame = true) :
    onLocalization fl cv le s =
      maybeFlush fl (maybeCloseFrame fl cv (applyLocFeature cv le s)) := by
  unfold onLocalization
  rw [if_neg (by simp [h])]

theorem onChassis_open {cv : Conv L CS LF CF P} {c : CS}
    {s : GenState L LF CF P} (h : s.hasOpenFrame = true) :
    onChassis cv c s =
      { s with
        learningData := updateLast
          (fun fr => { fr with chassisFeature := some (cv.chassisFeatureOf c) })
          s.learningData } := by
  unfold onChassis
  rw [if_neg (by simp [h])]

theorem onChassis_unchanged (cv : Conv L CS LF CF P) (c : CS)
    (s : GenState L LF CF P) :
    (onChassis cv c s).localizationForLabel = s.localizationForLabel ∧
    (onChassis cv c s).writtenFiles = s.writtenFiles ∧
    (onChassis cv c s).learningDataFileIndex = s.learningDataFileIndex ∧
    (onChassis cv c s).totalLearningDataFrameNum = s.totalLearningDataFrameNum ∧
    (onChassis cv c s).closedFrames = s.closedFrames ∧
    (onChassis cv c s).closedInBatch = s.closedInBatch ∧
    (onChassis cv c s).learningData.length = s.learningData.length ∧
    (onChassis cv c s).hasOpenFrame = s.hasOpenFrame := by
  unfold onChassis recordError
  split <;> simp [length_updateLast]

theorem maybeCloseFrame_of_lt {fl : Flags} {cv : Conv L CS LF CF P}
    {s : GenState L LF CF P}
    (h : s.localizationForLabel.length < fl.learningDataFrameLabelSampleInterval) :
    maybeCloseFrame fl cv s = s := by
  unfold maybeCloseFrame
  rw [if_neg (by omega)]

theorem maybeCloseFrame_of_ge {fl : Flags} {cv : Conv L CS LF CF P}
    {s : GenState L LF CF P}
    (h : fl.learningDataFrameLabelSampleInterval ≤ s.localizationForLabel.length) :
    maybeCloseFrame fl cv s = closeFrame fl cv s := by
  unfold maybeCloseFrame
  rw [if_pos h]

theorem closeFrame_window (fl : Flags) (cv : Conv L CS LF CF P)
    (s : GenState L LF CF P) :
    (closeFrame fl cv s).localizationForLabel =
      s.localizationForLabel.drop fl.localizationMoveWindowStep := rfl

theorem closeFrame_closedFrames {fl : Flags} {cv : Conv L CS LF CF P}
    {s : GenState L LF CF P} {A : List (Frame LF CF P)} {fr : Frame LF CF P}
    (hld : s.learningData = A ++ [fr]) :
    (closeFrame fl cv s).closedFrames = s.closedFrames ++
      [generateTrajectoryLabel cv.trajectoryPointOf
        fl.localizationSampleIntervalForTrajectoryPoint s.localizationForLabel fr] := by
  unfold closeFrame
  simp [hld, updateLast_append_singleton, List.getLast?_concat]

theorem maybeFlush_unchanged (fl : Flags) (s : GenState L LF CF P) :
    (maybeFlush fl s).localizationForLabel = s.localizationForLabel ∧
    (maybeFlush fl s).closedFrames = s.closedFrames ∧
    (maybeFlush fl s).hasOpenFrame = true ∨
    maybeFlush fl s = s := by
  unfold maybeFlush flushBatch
  split
  · left; exact ⟨rfl, rfl, rfl⟩
  · right; rfl

theorem maybeFlush_window (fl : Flags) (s : GenState L LF CF P) :
    (maybeFlush fl s).localizationForLabel = s.localizationForLabel := by
  unfold maybeFlush flushBatch
  split <;> rfl

theorem maybeFlush_closedFrames (fl : Flags) (s : GenState L LF CF P) :
    (maybeFlush fl s).closedFrames = s.closedFrames := by
  unfold maybeFlush flushBatch
  split <;> rfl

theorem applyLocFeature_window (cv : Conv L CS LF CF P) (le : L)
    (s : GenState L LF CF P) :
    (applyLocFeature cv le s).localizationForLabel =
      s.localizationForLabel ++ [le] := rfl

theorem applyLocFeature_closedFrames (cv : Conv L CS LF CF P) (le : L)
    (s : GenState L LF CF P) :
    (applyLocFeature cv le s).closedFrames = s.closedFrames := rfl

theorem runFromInit_append_singleton (fl : Flags) (cv : Conv L CS LF CF P)
    (ms : List (InputMsg L CS)) (m : InputMsg L CS) :
    runFromInit fl cv (ms ++ [m]) = processMsg fl cv (runFromInit fl cv ms) m := by
  unfold runFromInit processOfflineData
  rw [List.foldl_append]
  rfl

end EffectLemmas

section WindowInvariant

variable {L CS LF CF P : Type}

theorem window_lt_processMsg {fl : Flags} {cv : Conv L CS LF CF P}
    (hW : 1 ≤ fl.localizationMoveWindowStep)
    (hT : fl.localizationMoveWindowStep ≤ fl.learningDataFrameLabelSampleInterval)
    {s : GenState L LF CF P}
    (h : s.localizationForLabel.length < fl.learningDataFrameLabelSampleInterval)
    (m : InputMsg L CS) :
    (processMsg fl cv s m).localizationForLabel.length <
      fl.learningDataFrameLabelSampleInterval := by
  cases m with
  | chassis c =>
    rw [show (processMsg fl cv s (InputMsg.chassis c)) = onChassis cv c s from rfl,
      (onChassis_unchanged cv c s).1]
    exact h
  | localization le =>
    show (onLocalization fl cv le s).localizationForLabel.length < _
    unfold onLocalization
    split
    · exact h
    · rw [maybeFlush_window]
      by_cases hc : fl.learningDataFrameLabelSampleInterval ≤
          (applyLocFeature cv le s).localizationForLabel.length
      · rw [maybeCloseFrame_of_ge hc, closeFrame_window, List.length_drop]
        rw [applyLocFeature_window] at hc ⊢
        simp only [List.length_append, List.length_singleton] at hc ⊢
        omega
      · rw [maybeCloseFrame_of_lt (by omega)]
        omega

theorem window_lt_runFromInit {fl : Flags} {cv : Conv L CS LF CF P}
    (hW : 1 ≤ fl.localizationMoveWindowStep)
    (hT : fl.localizationMoveWindowStep ≤ fl.learningDataFrameLabelSampleInterval)
    (ms : List (InputMsg L CS)) :
    (runFromInit fl cv ms).localizationForLabel.length <
      fl.learningDataFrameLabelSampleInterval := by
  induction ms using List.reverseRecOn with
  | nil =>
    show (0 : ℕ) < fl.learningDataFrameLabelSampleInterval
    omega
  | append_singleton ms m ih =>
    rw [runFromInit_append_singleton]
    exact window_lt_processMsg hW hT ih m

end WindowInvariant

section LabelGeneration

variable {L CS LF CF P : Type}

theorem processMsg_chassis (fl : Flags) (cv : Conv L CS LF CF P)
    (s : GenState L LF CF P) (c : CS) :
    processMsg fl cv s (InputMsg.chassis c) = onChassis cv c s := rfl

theorem processMsg_localization (fl : Flags) (cv : Conv L CS LF CF P)
    (s : GenState L LF CF P) (le : L) :
    processMsg fl cv s (InputMsg.localization le) = onLocalization fl cv le s := rfl

theorem locSamples_append_chassis (ms : List (InputMsg L CS)) (c : CS) :
    locSamples (ms ++ [InputMsg.chassis c]) = locSamples ms := by
  rw [locSamples_append]
  simp [locSamples]

theorem locSamples_append_localization (ms : List (InputMsg L CS)) (le : L) :
    locSamples (ms ++ [InputMsg.localization le]) = locSamples ms ++ [le] := by
  rw [locSamples_append]
  rfl

theorem closedFrames_spec_aux {fl : Flags} {cv : Conv L CS LF CF P}
    (hT : 1 ≤ fl.learningDataFrameLabelSampleInterval)
    (ms : List (InputMsg L CS)) :
    ((locSamples ms).length < fl.learningDataFrameLabelSampleInterval →
      (runFromInit fl cv ms).closedFrames = [] ∧
      (runFromInit fl cv ms).localizationForLabel = locSamples ms) ∧
    ((locSamples ms).length = fl.learningDataFrameLabelSampleInterval →
      (runFromInit fl cv ms).closedFrames.map Frame.labelTrajectoryPoints =
        [generateTrajectoryLabelAux cv.trajectoryPointOf
          fl.localizationSampleIntervalForTrajectoryPoint 0 (locSamples ms)]) := by
  induction ms using List.reverseRecOn with
  | nil =>
    refine ⟨fun _ => ⟨rfl, rfl⟩, fun h => ?_⟩
    simp only [locSamples, List.length_nil] at h
    omega
  | append_singleton ms m ih =>
    rw [runFromInit_append_singleton]
    cases m with
    | chassis c =>
      rw [processMsg_chassis, locSamples_append_chassis]
      have hu := onChassis_unchanged cv c (runFromInit fl cv ms)
      refine ⟨fun hlt => ?_, fun heq => ?_⟩
      · obtain ⟨h1, h2⟩ := ih.1 hlt
        exact ⟨by rw [hu.2.2.2.2.1, h1], by rw [hu.1, h2]⟩
      · rw [hu.2.2.2.2.1]
        exact ih.2 heq
    | localization le =>
      rw [processMsg_localization, locSamples_append_localization]
      have hinv := inv_runFromInit fl cv ms
      rw [onLocalization_open hinv.hasOpen]
      obtain ⟨fr, hld, hlab⟩ := hinv.batchShape
      refine ⟨fun hlt => ?_, fun heq => ?_⟩
      · simp only [List.length_append, List.length_singleton] at hlt
        obtain ⟨h1, h2⟩ := ih.1 (by omega)
        rw [maybeCloseFrame_of_lt
          (by rw [applyLocFeature_window, h2]
              simp only [List.length_append, List.length_singleton]
              omega)]
        refine ⟨?_, ?_⟩
        · rw [maybeFlush_closedFrames, applyLocFeature_closedFrames, h1]
        · rw [maybeFlush_window, applyLocFeature_window, h2]
      · simp only [List.length_append, List.length_singleton] at heq
        obtain ⟨h1, h2⟩ := ih.1 (by omega)
        have hwin : (applyLocFeature cv le (runFromInit fl cv ms)).localizationForLabel =
            locSamples ms ++ [le] := by
          rw [applyLocFeature_window, h2]
        rw [maybeCloseFrame_of_ge
          (by rw [hwin]
              simp only [List.length_append, List.length_singleton]
              omega)]
        rw [maybeFlush_closedFrames]
        have hld' : (applyLocFeature cv le (runFromInit fl cv ms)).learningData =
            (runFromInit fl cv ms).closedInBatch ++
              [{ fr with localizationFeature := some (cv.localizationFeatureOf le) }] := by
          show updateLast _ (runFromInit fl cv ms).learningData = _
          rw [hld, updateLast_append_singleton]
        rw [closeFrame_closedFrames hld', applyLocFeature_closedFrames, h1]
        simp only [List.nil_append, List.map_cons, List.map_nil]
        congr 1
        show (generateTrajectoryLabel _ _ _ _).labelTrajectoryPoints = _
        unfold generateTrajectoryLabel
        rw [hwin]
        simp [hlab]

end LabelGeneration

section BatchInvariant

variable {L CS LF CF P : Type}

theorem applyLocFeature_learningData_length (cv : Conv L CS LF CF P) (le : L)
    (s : GenState L LF CF P) :
    (applyLocFeature cv le s).learningData.length = s.learningData.length :=
  length_updateLast _ _

theorem closeFrame_learningData_length (fl : Flags) (cv : Conv L CS LF CF P)
    (s : GenState L LF CF P) :
    (closeFrame fl cv s).learningData.length = s.learningData.length + 1 := by
  unfold closeFrame
  simp [length_updateLast]

theorem invB_initGenerator {fl : Flags}
    (hF : 2 ≤ fl.learningDataFrameNumPerFile) :
    InvB fl (initGenerator (initialState : GenState L LF CF P)) := by
  refine ⟨?_, ?_, ?_, ?_⟩ <;> simp [initGenerator, initialState]
  omega

theorem invB_maybeFlush {fl : Flags} {s : GenState L LF CF P}
    (hF : 2 ≤ fl.learningDataFrameNumPerFile)
    (hlenPos : 1 ≤ s.learningData.length)
    (hlenLe : s.learningData.length ≤ fl.learningDataFrameNumPerFile)
    (hfiles : ∀ f ∈ s.writtenFiles, f.frames.length = fl.learningDataFrameNumPerFile)
    (htotal : s.totalLearningDataFrameNum =
      fl.learningDataFrameNumPerFile * s.writtenFiles.length) :
    InvB fl (maybeFlush fl s) := by
  unfold maybeFlush
  split
  · rename_i hge
    have hlen : s.learningData.length = fl.learningDataFrameNumPerFile := by omega
    refine ⟨?_, ?_, ?_, ?_⟩
    · simp [flushBatch]
    · simpa [flushBatch] using by omega
    · intro f hf
      simp only [flushBatch, List.mem_append, List.mem_singleton] at hf
      rcases hf with hf | hf
      · exact hfiles f hf
      · rw [hf, hlen]
    · simp only [flushBatch, List.length_append, List.length_singleton, htotal, hlen]
      ring
  · rename_i hlt
    exact ⟨hlenPos, by omega, hfiles, htotal⟩

theorem invB_processMsg {fl : Flags} {cv : Conv L CS LF CF P}
    (hF : 2 ≤ fl.learningDataFrameNumPerFile)
    {s : GenState L LF CF P} (h : InvB fl s) (m : InputMsg L CS) :
    InvB fl (processMsg fl cv s m) := by
  cases m with
  | chassis c =>
    have hu := onChassis_unchanged cv c s
    show InvB fl (onChassis cv c s)
    exact ⟨by rw [hu.2.2.2.2.2.2.1]; exact h.lenPos,
      by rw [hu.2.2.2.2.2.2.1]; exact h.lenLt,
      by rw [hu.2.1]; exact h.filesFull,
      by rw [hu.2.2.2.1, hu.2.1]; exact h.totalMul⟩
  | localization le =>
    show InvB fl (onLocalization fl cv le s)
    unfold onLocalization
    split
    · exact ⟨h.lenPos, h.lenLt, h.filesFull, h.totalMul⟩
    · have h1len : (applyLocFeature cv le s).learningData.length =
          s.learningData.length := applyLocFeature_learningData_length cv le s
      unfold maybeCloseFrame
      split
      · apply invB_maybeFlush hF
        · rw [closeFrame_learningData_length, h1len]
          omega
        · rw [closeFrame_learningData_length, h1len]
          have := h.lenLt
          omega
        · exact h.filesFull
        · exact h.totalMul
      · apply invB_maybeFlush hF
        · rw [h1len]; exact h.lenPos
        · rw [h1len]
          have := h.lenLt
          omega
        · exact h.filesFull
        · exact h.totalMul

theorem invB_runFromInit {fl : Flags} {cv : Conv L CS LF CF P}
    (hF : 2 ≤ fl.learningDataFrameNumPerFile) (ms : List (InputMsg L CS)) :
    InvB fl (runFromInit fl cv ms) := by
  induction ms using List.reverseRecOn with
  | nil => exact invB_initGenerator hF
  | append_singleton ms m ih =>
    rw [runFromInit_append_singleton]
    exact invB_processMsg hF ih m

end BatchInvariant

section Claims

/-- Claim C1: for every run starting from initialization with an empty window
in which exactly `T_label` localization samples are ingested (with `T_label ≥ 1`
and `T_stride ≥ 1`, chassis samples interleaved arbitrarily), exactly one frame
closes, and its trajectory-point sequence is exactly the conversion of the
window samples at indices 0, `T_stride`, `2*T_stride`, ... in original time
order: `ceil(T_label / T_stride)` points, written `(T_label + T_stride - 1) /
T_stride` in natural-number division, with index 0 always included. -/
theorem claimC1 {L CS LF CF P : Type} (fl : Flags) (cv : Conv L CS LF CF P)
    (ms : List (InputMsg L CS))
    (hT : 1 ≤ fl.learningDataFrameLabelSampleInterval)
    (hS : 1 ≤ fl.localizationSampleIntervalForTrajectoryPoint)
    (hlen : (locSamples ms).length = fl.learningDataFrameLabelSampleInterval) :
    (runFromInit fl cv ms).closedFrames.length = 1 ∧
    (runFromInit fl cv ms).closedFrames.map Frame.labelTrajectoryPoints =
      [((withIndexFrom 0 (locSamples ms)).filter
          (fun p => p.1 % fl.localizationSampleIntervalForTrajectoryPoint = 0)).map
        (fun p => cv.trajectoryPointOf p.2)] ∧
    ((withIndexFrom 0 (locSamples ms)).filter
        (fun p => p.1 % fl.localizationSampleIntervalForTrajectoryPoint = 0)).length =
      (fl.learningDataFrameLabelSampleInterval +
          fl.localizationSampleIntervalForTrajectoryPoint - 1) /
        fl.localizationSampleIntervalForTrajectoryPoint := by
  have h2 := (@closedFrames_spec_aux L CS LF CF P fl cv hT ms).2 hlen
  rw [generateTrajectoryLabelAux_eq_filter] at h2
  refine ⟨?_, h2, ?_⟩
  · have h3 := congrArg List.length h2
    simpa using h3
  · rw [length_strideSelect _ hS, hlen]

/-- Witness for C1: configuration `T_label = 2`, `T_stride = 2`, stream
`[localization 5, chassis 9, localization 7]`: one frame closes, its label
points are the samples at indices 0 (sample 5), and `ceil(2/2) = 1`. -/
theorem claimC1Witness :
    1 ≤ wFlags.learningDataFrameLabelSampleInterval ∧
    1 ≤ wFlags.localizationSampleIntervalForTrajectoryPoint ∧
    (locSamples c1msgs).length = wFlags.learningDataFrameLabelSampleInterval ∧
    ((runFromInit wFlags natConv c1msgs).closedFrames.length = 1 ∧
      (runFromInit wFlags natConv c1msgs).closedFrames.map
          Frame.labelTrajectoryPoints =
        [((withIndexFrom 0 (locSamples c1msgs)).filter
            (fun p => p.1 % wFlags.localizationSampleIntervalForTrajectoryPoint = 0)).map
          (fun p => natConv.trajectoryPointOf p.2)] ∧
      ((withIndexFrom 0 (locSamples c1msgs)).filter
          (fun p => p.1 % wFlags.localizationSampleIntervalForTrajectoryPoint = 0)).length =
        (wFlags.learningDataFrameLabelSampleInterval +
            wFlags.localizationSampleIntervalForTrajectoryPoint - 1) /
          wFlags.localizationSampleIntervalForTrajectoryPoint) :=
  ⟨by decide, by decide, by decide,
    claimC1 wFlags natConv c1msgs (by decide) (by decide) (by decide)⟩

/-- Claim C4: whenever a frame closes (the window trigger fires on a
localization sample; preconditions `1 ≤ W_step ≤ T_label`), exactly `W_step`
elements are evicted from the front of the window and no others, so the window
afterwards is the old window with the new sample appended and the first
`W_step` elements dropped, of length `T_label - W_step`, and the number of
closed frames grows by exactly one. -/
theorem claimC4 {L CS LF CF P : Type} (fl : Flags) (cv : Conv L CS LF CF P)
    (ms : List (InputMsg L CS)) (le : L)
    (hW : 1 ≤ fl.localizationMoveWindowStep)
    (hT : fl.localizationMoveWindowStep ≤ fl.learningDataFrameLabelSampleInterval)
    (htrig : fl.learningDataFrameLabelSampleInterval ≤
      (runFromInit fl cv ms).localizationForLabel.length + 1) :
    (onLocalization fl cv le (runFromInit fl cv ms)).localizationForLabel =
      ((runFromInit fl cv ms).localizationForLabel ++ [le]).drop
        fl.localizationMoveWindowStep ∧
    (onLocalization fl cv le (runFromInit fl cv ms)).localizationForLabel.length =
      fl.learningDataFrameLabelSampleInterval - fl.localizationMoveWindowStep ∧
    (onLocalization fl cv le (runFromInit fl cv ms)).closedFrames.length =
      (runFromInit fl cv ms).closedFrames.length + 1 := by
  have hinv := inv_runFromInit fl cv ms
  have hlt := @window_lt_runFromInit L CS LF CF P fl cv hW hT ms
  obtain ⟨fr, hld, hlab⟩ := hinv.batchShape
  rw [onLocalization_open hinv.hasOpen]
  have htrig2 : fl.learningDataFrameLabelSampleInterval ≤
      (applyLocFeature cv le (runFromInit fl cv ms)).localizationForLabel.length := by
    rw [applyLocFeature_window]
    simp only [List.length_append, List.length_singleton]
    omega
  rw [maybeCloseFrame_of_ge htrig2]
  have hld' : (applyLocFeature cv le (runFromInit fl cv ms)).learningData =
      (runFromInit fl cv ms).closedInBatch ++
        [{ fr with localizationFeature := some (cv.localizationFeatureOf le) }] := by
    show updateLast _ (runFromInit fl cv ms).learningData = _
    rw [hld, updateLast_append_singleton]
  refine ⟨?_, ?_, ?_⟩
  · rw [maybeFlush_window, closeFrame_window, applyLocFeature_window]
  · rw [maybeFlush_window, closeFrame_window, applyLocFeature_window,
      List.length_drop]
    simp only [List.length_append, List.length_singleton]
    omega
  · rw [maybeFlush_closedFrames, closeFrame_closedFrames hld',
      applyLocFeature_closedFrames]
    simp

/-- Witness for C4: configuration `T_label = 2`, `W_step = 1`, after stream
`[localization 3]` the sample 4 closes a frame; the window becomes `[4]`
(length `2 - 1 = 1`) and one frame has closed. -/
theorem claimC4Witness :
    1 ≤ wFlags.localizationMoveWindowStep ∧
    wFlags.localizationMoveWindowStep ≤ wFlags.learningDataFrameLabelSampleInterval ∧
    wFlags.learningDataFrameLabelSampleInterval ≤
      (runFromInit wFlags natConv [InputMsg.localization 3]).localizationForLabel.length + 1 ∧
    ((onLocalization wFlags natConv 4
        (runFromInit wFlags natConv [InputMsg.localization 3])).localizationForLabel =
      ((runFromInit wFlags natConv [InputMsg.localization 3]).localizationForLabel ++
        [4]).drop wFlags.localizationMoveWindowStep ∧
    (onLocalization wFlags natConv 4
        (runFromInit wFlags natConv [InputMsg.localization 3])).localizationForLabel.length =
      wFlags.learningDataFrameLabelSampleInterval - wFlags.localizationMoveWindowStep ∧
    (onLocalization wFlags natConv 4
        (runFromInit wFlags natConv [InputMsg.localization 3])).closedFrames.length =
      (runFromInit wFlags natConv [InputMsg.localization 3]).closedFrames.length + 1) :=
  ⟨by decide, by decide, by decide,
    claimC4 wFlags natConv [InputMsg.localization 3] 4 (by decide) (by decide) (by decide)⟩

/-- Claim C6: a localization or chassis sample that arrives while no frame is
open (`learning_data_frame_ == nullptr`) is dropped with only an error signal:
the resulting state differs from the old one in the error count alone, so the
window, the batch, the file index, the cumulative total, the written files and
the closed-frame record are all unchanged and no close or flush happens. -/
theorem claimC6 {L CS LF CF P : Type} (fl : Flags) (cv : Conv L CS LF CF P)
    (le : L) (c : CS) (s : GenState L LF CF P) (h : s.hasOpenFrame = false) :
    onLocalization fl cv le s = { s with errorCount := s.errorCount + 1 } ∧
    onChassis cv c s = { s with errorCount := s.errorCount + 1 } := by
  unfold onLocalization onChassis recordError
  rw [if_pos h, if_pos h]
  exact ⟨rfl, rfl⟩

/-- Witness for C6: the default-initialized state (before `Init()`) has a null
current-frame pointer; ingesting localization sample 7 or chassis sample 8
only bumps the error count. -/
theorem claimC6Witness :
    (initialState : GenState ℕ ℕ ℕ ℕ).hasOpenFrame = false ∧
    (onLocalization cexFlags natConv 7 (initialState : GenState ℕ ℕ ℕ ℕ) =
      { (initialState : GenState ℕ ℕ ℕ ℕ) with
        errorCount := (initialState : GenState ℕ ℕ ℕ ℕ).errorCount + 1 } ∧
    onChassis natConv 8 (initialState : GenState ℕ ℕ ℕ ℕ) =
      { (initialState : GenState ℕ ℕ ℕ ℕ) with
        errorCount := (initialState : GenState ℕ ℕ ℕ ℕ).errorCount + 1 }) :=
  ⟨by decide, claimC6 cexFlags natConv 7 8 initialState (by decide)⟩

/-- Claim C7: a chassis sample ingested while a frame is open changes only the
open frame's chassis feature snapshot (overwritten with the sample's fields):
the window, written files, file index, cumulative total and closed-frame record
are unchanged, the closed part of the batch is untouched, and the open frame
(the last batch element) changes only its chassis feature; two chassis samples
in sequence leave the snapshot of the second, never the first. -/
theorem claimC7 {L CS LF CF P : Type} (cv : Conv L CS LF CF P) (c c1 c2 : CS)
    (s : GenState L LF CF P) (h : s.hasOpenFrame = true) :
    (onChassis cv c s).localizationForLabel = s.localizationForLabel ∧
    (onChassis cv c s).writtenFiles = s.writtenFiles ∧
    (onChassis cv c s).learningDataFileIndex = s.learningDataFileIndex ∧
    (onChassis cv c s).totalLearningDataFrameNum = s.totalLearningDataFrameNum ∧
    (onChassis cv c s).closedFrames = s.closedFrames ∧
    (onChassis cv c s).learningData.dropLast = s.learningData.dropLast ∧
    (onChassis cv c s).learningData.getLast? = s.learningData.getLast?.map
      (fun fr => { fr with chassisFeature := some (cv.chassisFeatureOf c) }) ∧
    (onChassis cv c2 (onChassis cv c1 s)).learningData.getLast? =
      s.learningData.getLast?.map
        (fun fr => { fr with chassisFeature := some (cv.chassisFeatureOf c2) }) := by
  have h1 : (onChassis cv c1 s).hasOpenFrame = true := by
    rw [(onChassis_unchanged cv c1 s).2.2.2.2.2.2.2, h]
  rw [onChassis_open (c := c2) h1, onChassis_open (c := c1) h,
    onChassis_open (c := c) h]
  refine ⟨rfl, rfl, rfl, rfl, rfl, dropLast_updateLast _ _, getLast?_updateLast _ _, ?_⟩
  show (updateLast _ (updateLast _ s.learningData)).getLast? = _
  rw [getLast?_updateLast, getLast?_updateLast, Option.map_map]
  cases s.learningData.getLast? <;> rfl

/-- Witness for C7: on the freshly initialized state, chassis samples 3, then 4
and 5 in sequence, behave as claimed. -/
theorem claimC7Witness :
    (initGenerator (initialState : GenState ℕ ℕ ℕ ℕ)).hasOpenFrame = true ∧
    ((onChassis natConv 3 (initGenerator initialState)).localizationForLabel =
      (initGenerator (initialState : GenState ℕ ℕ ℕ ℕ)).localizationForLabel ∧
    (onChassis natConv 3 (initGenerator initialState)).writtenFiles =
      (initGenerator (initialState : GenState ℕ ℕ ℕ ℕ)).writtenFiles ∧
    (onChassis natConv 3 (initGenerator initialState)).learningDataFileIndex =
      (initGenerator (initialState : GenState ℕ ℕ ℕ ℕ)).learningDataFileIndex ∧
    (onChassis natConv 3 (initGenerator initialState)).totalLearningDataFrameNum =
      (initGenerator (initialState : GenState ℕ ℕ ℕ ℕ)).totalLearningDataFrameNum ∧
    (onChassis natConv 3 (initGenerator initialState)).closedFrames =
      (initGenerator (initialState : GenState ℕ ℕ ℕ ℕ)).closedFrames ∧
    (onChassis natConv 3 (initGenerator initialState)).learningData.dropLast =
      (initGenerator (initialState : GenState ℕ ℕ ℕ ℕ)).learningData.dropLast ∧
    (onChassis natConv 3 (initGenerator initialState)).learningData.getLast? =
      (initGenerator (initialState : GenState ℕ ℕ ℕ ℕ)).learningData.getLast?.map
        (fun fr => { fr with chassisFeature := some (natConv.chassisFeatureOf 3) }) ∧
    (onChassis natConv 5 (onChassis natConv 4 (initGenerator initialState))).learningData.getLast? =
      (initGenerator (initialState : GenState ℕ ℕ ℕ ℕ)).learningData.getLast?.map
        (fun fr => { fr with chassisFeature := some (natConv.chassisFeatureOf 5) })) :=
  ⟨by decide, claimC7 natConv 3 4 5 (initGenerator initialState) (by decide)⟩

/-- Claim C10: from initialization onward, after any sequence of localization
and chassis ingests the batch is non-empty, its last element is the open frame
(the batch is the closed-since-last-flush frames followed by the open frame),
so the length the flush trigger compares against `F_max` equals the number of
closed frames currently in the batch plus one. -/
theorem claimC10 {L CS LF CF P : Type} (fl : Flags) (cv : Conv L CS LF CF P)
    (ms : List (InputMsg L CS)) :
    (runFromInit fl cv ms).hasOpenFrame = true ∧
    (∃ fr, (runFromInit fl cv ms).learningData =
      (runFromInit fl cv ms).closedInBatch ++ [fr]) ∧
    (runFromInit fl cv ms).learningData.length =
      (runFromInit fl cv ms).closedInBatch.length + 1 := by
  have h := inv_runFromInit fl cv ms
  obtain ⟨fr, hld, _⟩ := h.batchShape
  refine ⟨h.hasOpen, ⟨fr, hld⟩, ?_⟩
  rw [hld]
  simp

/-- Counterexample to claim C2 as stated: with `F_max = 2` and `T_label = 1`,
two localization samples close exactly two frames, so the number of frames ever
closed is divisible by `F_max` and the claim says the final file is omitted;
but the run writes three files holding 2, 2 and 1 frames: the batch counts the
open frame, so each flushed file carries one never-closed frame and the final
`Close()` always has the open frame left to write. -/
theorem claimC2Counterexample :
    (closeGenerator cexFlags (runFromInit cexFlags natConv c2msgs)).closedFrames.length %
      cexFlags.learningDataFrameNumPerFile = 0 ∧
    (closeGenerator cexFlags (runFromInit cexFlags natConv c2msgs)).writtenFiles.map
      (fun f => f.frames.length) = [2, 2, 1] := by
  decide

/-- Claim C2 amended: with `F_max ≥ 2`, every file written by the in-loop batch
flush holds exactly `F_max` frames (of which one is the open frame, stored in
the batch); the final file written at `Close()` always exists, holds between 1
and `F_max - 1` frames, and its frame count equals the reported cumulative
total modulo `F_max` (the total of frames written, not of frames closed). -/
theorem claimC2Amended {L CS LF CF P : Type} (fl : Flags) (cv : Conv L CS LF CF P)
    (ms : List (InputMsg L CS)) (hF : 2 ≤ fl.learningDataFrameNumPerFile) :
    (∀ f ∈ (closeGenerator fl (runFromInit fl cv ms)).writtenFiles.dropLast,
      f.frames.length = fl.learningDataFrameNumPerFile) ∧
    ∃ lastF, (closeGenerator fl (runFromInit fl cv ms)).writtenFiles.getLast? =
        some lastF ∧
      1 ≤ lastF.frames.length ∧
      lastF.frames.length < fl.learningDataFrameNumPerFile ∧
      lastF.frames.length =
        (closeGenerator fl (runFromInit fl cv ms)).totalLearningDataFrameNum %
          fl.learningDataFrameNumPerFile := by
  have hB := @invB_runFromInit L CS LF CF P fl cv hF ms
  constructor
  · intro f hf
    have hdl : (closeGenerator fl (runFromInit fl cv ms)).writtenFiles.dropLast =
        (runFromInit fl cv ms).writtenFiles := by
      simp [closeGenerator]
    rw [hdl] at hf
    exact hB.filesFull f hf
  · refine ⟨⟨outputFileName fl.planningDataDir
        (runFromInit fl cv ms).learningDataFileIndex,
      fl.enableBinaryLearningData, (runFromInit fl cv ms).learningData⟩, ?_, ?_, ?_, ?_⟩
    · simp [closeGenerator]
    · exact hB.lenPos
    · exact hB.lenLt
    · show (runFromInit fl cv ms).learningData.length =
        ((runFromInit fl cv ms).totalLearningDataFrameNum +
          (runFromInit fl cv ms).learningData.length) %
          fl.learningDataFrameNumPerFile
      rw [hB.totalMul, Nat.mul_add_mod, Nat.mod_eq_of_lt hB.lenLt]

/-- Witness for the amended C2: configuration `F_max = 2`, `T_label = 1`,
stream `[localization 0]`: one in-loop flush writes a 2-frame file, `Close()`
writes a 1-frame file, and `1 = 3 % 2`. -/
theorem claimC2Witness :
    2 ≤ cexFlags.learningDataFrameNumPerFile ∧
    ((∀ f ∈ (closeGenerator cexFlags (runFromInit cexFlags natConv
          [InputMsg.localization 0])).writtenFiles.dropLast,
        f.frames.length = cexFlags.learningDataFrameNumPerFile) ∧
    ∃ lastF, (closeGenerator cexFlags (runFromInit cexFlags natConv
          [InputMsg.localization 0])).writtenFiles.getLast? = some lastF ∧
      1 ≤ lastF.frames.length ∧
      lastF.frames.length < cexFlags.learningDataFrameNumPerFile ∧
      lastF.frames.length =
        (closeGenerator cexFlags (runFromInit cexFlags natConv
          [InputMsg.localization 0])).totalLearningDataFrameNum %
          cexFlags.learningDataFrameNumPerFile) :=
  ⟨by decide, claimC2Amended cexFlags natConv [InputMsg.localization 0] (by decide)⟩

/-- Counterexample to claim C3 as stated: a run with zero samples closes zero
frames, yet `Close()` reports a cumulative total of 1, because the batch still
holds the open frame and `Close()` counts every frame it writes. -/
theorem claimC3Counterexample :
    (closeGenerator cexFlags (runFromInit cexFlags natConv [])).totalLearningDataFrameNum = 1 ∧
    (closeGenerator cexFlags (runFromInit cexFlags natConv [])).closedFrames.length = 0 := by
  decide

/-- Claim C3 amended: the cumulative total reported at finalize equals the
number of frames ever closed plus the number of files written (each written
file, including the final one, also contains the then-open frame, which is
counted although it never closed). -/
theorem claimC3Amended {L CS LF CF P : Type} (fl : Flags) (cv : Conv L CS LF CF P)
    (ms : List (InputMsg L CS)) :
    (closeGenerator fl (runFromInit fl cv ms)).totalLearningDataFrameNum =
      (closeGenerator fl (runFromInit fl cv ms)).closedFrames.length +
        (closeGenerator fl (runFromInit fl cv ms)).writtenFiles.length := by
  have ht := (inv_runFromInit fl cv ms).totalEq
  simp only [closeGenerator, List.length_append, List.length_singleton]
  omega

/-- Counterexample to claim C5 as stated: for a sample whose linear velocity is
the unit vector along Z, the source computes speed `sqrt(0*0 + 0*0) = 0`, while
the Euclidean norm of the full velocity vector is 1: the Z component is
ignored. -/
theorem claimC5Counterexample :
    (trajectoryPointOfPose poseZ).v ≠ euclideanNorm3 poseZ.linearVelocity := by
  have h1 : (trajectoryPointOfPose poseZ).v = 0 := by
    simp [trajectoryPointOfPose, poseZ]
  have h2 : euclideanNorm3 poseZ.linearVelocity = 1 := by
    simp [euclideanNorm3, poseZ]
  rw [h1, h2]
  norm_num

/-- Claim C5 amended: the trajectory point's scalar speed equals the Euclidean
norm of the planar (x, y) projection of the sample's linear velocity, and its
scalar acceleration the Euclidean norm of the (x, y) projection of the linear
acceleration; the z components do not enter.  The Euclidean plane is
represented by `ℂ` with its standard (Euclidean) norm. -/
theorem claimC5Amended (pose : Pose) :
    (trajectoryPointOfPose pose).v =
      ‖(⟨pose.linearVelocity.x, pose.linearVelocity.y⟩ : ℂ)‖ ∧
    (trajectoryPointOfPose pose).a =
      ‖(⟨pose.linearAcceleration.x, pose.linearAcceleration.y⟩ : ℂ)‖ := by
  constructor <;>
  · rw [Complex.norm_eq_abs, Complex.abs_apply, Complex.normSq_mk]
    rfl

/-- Counterexample to claim C8's clause that the fixed suffix denotes the
serialization form selected by the binary/text switch: two configurations that
differ only in the switch produce files with identical names (same fixed
`.bin` suffix) but different codecs, so the name does not reflect the form. -/
theorem claimC8Counterexample :
    (closeGenerator textFlags (runFromInit textFlags natConv [])).writtenFiles.map
        OutFile.name =
      (closeGenerator cexFlags (runFromInit cexFlags natConv [])).writtenFiles.map
        OutFile.name ∧
    (closeGenerator textFlags (runFromInit textFlags natConv [])).writtenFiles.map
      OutFile.binaryFormat = [false] ∧
    (closeGenerator cexFlags (runFromInit cexFlags natConv [])).writtenFiles.map
      OutFile.binaryFormat = [true] := by
  decide

/-- Claim C8 amended: every flush (in-loop or at `Close()`) writes exactly one
file named `prefix ++ "/learning_data." ++ index ++ ".bin"` and increments the
index by exactly one; across a whole run the files carry the indices
0, 1, 2, ... in order and the final index equals the file count; the `.bin`
suffix is fixed and independent of the binary/text switch, which selects only
the serialization codec recorded with each write. -/
theorem claimC8Amended {L CS LF CF P : Type} (fl : Flags) (cv : Conv L CS LF CF P)
    (ms : List (InputMsg L CS)) :
    (∀ s : GenState L LF CF P,
      (flushBatch fl s).writtenFiles = s.writtenFiles ++
        [⟨outputFileName fl.planningDataDir s.learningDataFileIndex,
          fl.enableBinaryLearningData, s.learningData⟩] ∧
      (flushBatch fl s).learningDataFileIndex = s.learningDataFileIndex + 1 ∧
      (closeGenerator fl s).writtenFiles = s.writtenFiles ++
        [⟨outputFileName fl.planningDataDir s.learningDataFileIndex,
          fl.enableBinaryLearningData, s.learningData⟩] ∧
      (closeGenerator fl s).learningDataFileIndex = s.learningDataFileIndex + 1) ∧
    (∀ i, outputFileName fl.planningDataDir i =
      fl.planningDataDir ++ "/learning_data." ++ toString i ++ ".bin") ∧
    (closeGenerator fl (runFromInit fl cv ms)).writtenFiles.map OutFile.name =
      (List.range (closeGenerator fl (runFromInit fl cv ms)).writtenFiles.length).map
        (outputFileName fl.planningDataDir) ∧
    (closeGenerator fl (runFromInit fl cv ms)).learningDataFileIndex =
      (closeGenerator fl (runFromInit fl cv ms)).writtenFiles.length ∧
    ∀ f ∈ (closeGenerator fl (runFromInit fl cv ms)).writtenFiles,
      f.binaryFormat = fl.enableBinaryLearningData := by
  have h := inv_runFromInit fl cv ms
  refine ⟨fun s => ⟨rfl, rfl, rfl, rfl⟩, fun i => rfl, ?_, ?_, ?_⟩
  · simp only [closeGenerator, List.map_append, List.length_append,
      List.length_singleton]
    rw [h.fileNames, h.indexEq, List.range_succ, List.map_append]
    rfl
  · simp only [closeGenerator, List.length_append, List.length_singleton]
    rw [h.indexEq]
  · intro f hf
    simp only [closeGenerator, List.mem_append, List.mem_singleton] at hf
    rcases hf with hf | hf
    · exact h.fileCodecs f hf
    · rw [hf]

/-- Counterexample to claim C9's empty-batch clause: applying `Close()` to a
state whose batch holds 0 frames (the default-initialized state) is not a
skipped write: a file holding 0 frames is written and the file index is
incremented. -/
theorem claimC9Counterexample :
    (initialState : GenState ℕ ℕ ℕ ℕ).learningData.length = 0 ∧
    (closeGenerator cexFlags (initialState : GenState ℕ ℕ ℕ ℕ)).writtenFiles.length = 1 ∧
    (closeGenerator cexFlags (initialState : GenState ℕ ℕ ℕ ℕ)).learningDataFileIndex = 1 := by
  decide

/-- Claim C9 amended: finalize always flushes the remaining batch with exactly
the same file write, count accumulation and index increment as the in-loop
flush, regardless of whether `F_max` was reached, and it never skips the
write; in any initialized run the batch holds at least one frame (the open
frame) at finalize, so a 0-frame batch cannot arise there. -/
theorem claimC9Amended {L CS LF CF P : Type} (fl : Flags) (cv : Conv L CS LF CF P)
    (ms : List (InputMsg L CS)) :
    (∀ s : GenState L LF CF P,
      (closeGenerator fl s).writtenFiles = (flushBatch fl s).writtenFiles ∧
      (closeGenerator fl s).totalLearningDataFrameNum =
        (flushBatch fl s).totalLearningDataFrameNum ∧
      (closeGenerator fl s).learningDataFileIndex =
        (flushBatch fl s).learningDataFileIndex ∧
      (closeGenerator fl s).writtenFiles = s.writtenFiles ++
        [⟨outputFileName fl.planningDataDir s.learningDataFileIndex,
          fl.enableBinaryLearningData, s.learningData⟩] ∧
      (closeGenerator fl s).totalLearningDataFrameNum =
        s.totalLearningDataFrameNum + s.learningData.length) ∧
    1 ≤ (runFromInit fl cv ms).learningData.length := by
  refine ⟨fun s => ⟨rfl, rfl, rfl, rfl, rfl⟩, ?_⟩
  obtain ⟨fr, hld, _⟩ := (inv_runFromInit fl cv ms).batchShape
  rw [hld]
  simp

end Claims

end Apollo
